import Mathlib

/-!
Verification of the dynamic task orchestration firmware
(src/main/sensors.c, src/main/task_manager.c, src/main/main.c).

The embedding is shallow: the pure computation of each C function is
translated into a Lean definition; hardware reads (DHT bus, ultrasonic
echo, MPU registers) enter as oracle parameters (a list of per-iteration
outcomes); `float` accumulation is idealised as exact rational
arithmetic; C `int` arithmetic is `Int` (all quantities involved stay
far below 2^31, and the distance division is C truncated division on
nonnegative operands, which coincides with `Int` division).
-/

namespace Esp32Tasks

/-! ## Sensor capability layer (src/main/sensors.c) -/

/-- Pure tail of `get_ultrasonic_data` (sensors.c:12-64) after the GPIO
pulse: given whether the 30 ms echo-start wait timed out and the measured
high-pulse width in µs, the returned value. `-1` is the error return;
otherwise the distance in cm is `duration_us / 58` (C integer division). -/
def get_ultrasonic_data (timed_out : Bool) (duration_us : Int) : Int :=
  if timed_out then -1
  else if duration_us ≤ 0 ∨ duration_us ≥ 30000 then -1
  else duration_us / 58

/-! ## Averaging samplers (sensors.c:131-211)

Each sampler is a loop over `samples` iterations; the outcome of the
`i`-th underlying single-shot read is supplied as the `i`-th list
element.  For DHT11 an outcome is `none` when `dht_read_data` fails,
`some (humidity, temperature)` (raw int16 tenths) when it succeeds; for
the MPU an outcome is `none` on failure and `some (x, y, z)` (g) on
success; for the ultrasonic sensor the outcome is the raw `int` return
of `get_ultrasonic_data` (`-1` on failure). -/

/-- Accumulator of `read_dht11_averaged`: `sum_hum`, `sum_temp`,
`valid_count` (sensors.c:135-136). -/
structure dht_acc where
  sum_hum : ℚ
  sum_temp : ℚ
  valid_count : Nat
deriving DecidableEq

/-- One iteration of the loop in `read_dht11_averaged` (sensors.c:138-150):
on `ESP_OK` add `humidity / 10.0f` and `temperature / 10.0f` to the sums
and bump `valid_count`; on failure change nothing. -/
def dht_step (a : dht_acc) (r : Option (Int × Int)) : dht_acc :=
  match r with
  | some ht => ⟨a.sum_hum + (ht.1 : ℚ) / 10, a.sum_temp + (ht.2 : ℚ) / 10,
                a.valid_count + 1⟩
  | none => a

/-- `read_dht11_averaged` (sensors.c:131-157). `none` models the `-1`
error return (guard `samples <= 0`, or `valid_count == 0`); `some (h, t)`
models the averaged humidity and temperature written into `out`. -/
def read_dht11_averaged (reads : List (Option (Int × Int))) :
    Option (ℚ × ℚ) :=
  if reads.length ≤ 0 then none
  else
    let a := reads.foldl dht_step ⟨0, 0, 0⟩
    if a.valid_count = 0 then none
    else some (a.sum_hum / a.valid_count, a.sum_temp / a.valid_count)

/-- Accumulator of `read_ultrasonic_averaged` (sensors.c:163-164). -/
structure ultra_acc where
  sum_dist : Int
  valid_count : Nat
deriving DecidableEq

/-- One iteration of the loop in `read_ultrasonic_averaged`
(sensors.c:166-173): the sample is counted only when `dist > 0`. -/
def ultra_step (a : ultra_acc) (dist : Int) : ultra_acc :=
  if dist > 0 then ⟨a.sum_dist + dist, a.valid_count + 1⟩ else a

/-- `read_ultrasonic_averaged` (sensors.c:159-179). `none` models the
`-1` error return; `some d` models `out->ultrasonic_distance =
sum_dist / valid_count` (C integer division; both operands positive). -/
def read_ultrasonic_averaged (reads : List Int) : Option Int :=
  if reads.length ≤ 0 then none
  else
    let a := reads.foldl ultra_step ⟨0, 0⟩
    if a.valid_count = 0 then none
    else some (a.sum_dist / (a.valid_count : Int))

/-- Accumulator of `read_mpu6050_averaged` (sensors.c:185-186). -/
structure mpu_acc where
  sum_x : ℚ
  sum_y : ℚ
  sum_z : ℚ
  valid_count : Nat
deriving DecidableEq

/-- One iteration of the loop in `read_mpu6050_averaged`
(sensors.c:188-203). -/
def mpu_step (a : mpu_acc) (r : Option (ℚ × ℚ × ℚ)) : mpu_acc :=
  match r with
  | some v => ⟨a.sum_x + v.1, a.sum_y + v.2.1, a.sum_z + v.2.2,
               a.valid_count + 1⟩
  | none => a

/-- `read_mpu6050_averaged` (sensors.c:181-211), assuming the MPU is
initialised (`s_mpu_inited`); `none` models the `-1` error return. -/
def read_mpu6050_averaged (reads : List (Option (ℚ × ℚ × ℚ))) :
    Option (ℚ × ℚ × ℚ) :=
  if reads.length ≤ 0 then none
  else
    let a := reads.foldl mpu_step ⟨0, 0, 0, 0⟩
    if a.valid_count = 0 then none
    else some (a.sum_x / a.valid_count, a.sum_y / a.valid_count,
               a.sum_z / a.valid_count)

/-! ## Config compiler (src/main/task_manager.c, include/task_manager.h) -/

/-- `MAX_TASKS` (task_manager.h:8). -/
def MAX_TASKS : Nat := 32

/-- `MAX_SENSORS_PER_TASK` (task_manager.h:9). -/
def MAX_SENSORS_PER_TASK : Nat := 3

/-- `MAX_TASK_NAME_LEN` (task_manager.h:10). -/
def MAX_TASK_NAME_LEN : Nat := 32

/-- `sensor_type_t` (task_manager.h:12-17), constructors in declaration
order, so `SENSOR_DHT11` is the enum value `0`. -/
inductive sensor_type_t where
  | SENSOR_DHT11
  | SENSOR_ULTRASONIC
  | SENSOR_MPU6050
  | SENSOR_NONE
deriving DecidableEq

/-- The value a zero-filled `sensor_type_t` slot holds after
`memset(config, 0, ...)` (task_manager.c:145): enum value `0`. -/
def sensor_type_zero : sensor_type_t := .SENSOR_DHT11

/-- `parse_sensor_type` (task_manager.c:101-107). -/
def parse_sensor_type (s : String) : sensor_type_t :=
  if s = "dht11" then .SENSOR_DHT11
  else if s = "ultrasonic" then .SENSOR_ULTRASONIC
  else if s = "mpu6050" then .SENSOR_MPU6050
  else .SENSOR_NONE

/-- One element of a record's `sensors` array as cJSON hands it over:
`some s` when the element is a string (`sensor->valuestring` non-NULL),
`none` when it is present but not a string. -/
abbrev sensor_entry := Option String

/-- The value a sensor slot receives in the loop of
`task_manager_parse_and_create` (task_manager.c:167-172): a string entry
goes through `parse_sensor_type`; a non-string entry is skipped, leaving
the slot at its zero-initialised value. -/
def decode_sensor_slot : sensor_entry → sensor_type_t
  | some s => parse_sensor_type s
  | none => sensor_type_zero

/-- One record of the `tasks` array; each field is `none` when the key
is absent from the JSON object (`cJSON_GetObjectItem` returns NULL). -/
structure task_record where
  name : Option String
  priority : Option Int
  period_ms : Option Int
  sensors : Option (List sensor_entry)

/-- `task_config_t` (task_manager.h:19-25); `sensors` is the prefix of
the fixed array that `sensor_count` makes visible. -/
structure task_config where
  name : String
  priority : Int
  period_ms : Int
  sensors : List sensor_type_t
  sensor_count : Nat
deriving DecidableEq

/-- The per-record body of `task_manager_parse_and_create`
(task_manager.c:145-172): `none` when any of the four required keys is
missing (the `continue` at line 156); otherwise the populated
`task_config_t`, with the name truncated by
`strncpy(..., MAX_TASK_NAME_LEN - 1)` and the sensor list capped at
`MAX_SENSORS_PER_TASK`. -/
def parse_task_record (r : task_record) : Option task_config :=
  match r.name, r.priority, r.period_ms, r.sensors with
  | some n, some p, some per, some ss =>
      some ⟨n.take (MAX_TASK_NAME_LEN - 1), p, per,
            (ss.take MAX_SENSORS_PER_TASK).map decode_sensor_slot,
            min ss.length MAX_SENSORS_PER_TASK⟩
  | _, _, _, _ => none

/-- The configs for which `task_manager_parse_and_create` reaches
`active_task_count++` (task_manager.c:134-192): the record list is first
truncated to `MAX_TASKS` (lines 126-130), each record is parsed (records
with missing keys are skipped), and `spawn_ok` models whether
`xTaskCreate` returns `pdPASS` for that config. -/
def created_configs (records : List task_record)
    (spawn_ok : task_config → Bool) : List task_config :=
  ((records.take MAX_TASKS).filterMap parse_task_record).filter spawn_ok

/-- `task_manager_parse_and_create` (task_manager.c:109-196) at boot
(`active_task_count` starts at 0). `payload = none` models a string that
fails `cJSON_Parse` or whose `tasks` member is absent or not an array
(the `-1` returns at lines 114-124); otherwise the return value is the
final `active_task_count`. -/
def task_manager_parse_and_create (payload : Option (List task_record))
    (spawn_ok : task_config → Bool) : Int :=
  match payload with
  | none => -1
  | some records => (created_configs records spawn_ok).length

/-- A record has all four required keys (task_manager.c:153). -/
def well_formed (r : task_record) : Bool :=
  r.name.isSome && r.priority.isSome && r.period_ms.isSome &&
    r.sensors.isSome

/-! ## Per-task polling cycle (task_manager.c:25-80) -/

/-- The three physical sensor polls a cycle can perform. -/
inductive sensor_poll where
  | dht
  | ultra
  | mpu
deriving DecidableEq

/-- The `switch (config->sensors[i])` dispatch of `dynamic_sensor_task`
(task_manager.c:41-59): which averaged read a slot triggers;
`SENSOR_NONE` falls to `default` and does nothing. -/
def sensor_action : sensor_type_t → Option sensor_poll
  | .SENSOR_DHT11 => some .dht
  | .SENSOR_ULTRASONIC => some .ultra
  | .SENSOR_MPU6050 => some .mpu
  | .SENSOR_NONE => none

/-- The sample count passed to the averaged reader for each sensor kind
by `dynamic_sensor_task` (task_manager.c:43, 48, 53): the literal `10`
in every call. -/
def sample_count : sensor_poll → Nat
  | .dht => 10
  | .ultra => 10
  | .mpu => 10

/-- The inter-sample delay in ms inside each averaged reader
(sensors.c:149, 172, 202). -/
def inter_sample_delay_ms : sensor_poll → Nat
  | .dht => 100
  | .ultra => 50
  | .mpu => 10

/-! ## Log-line formatting (task_manager.c:62-76, 210-226) -/

/-- `sensor_readings_t` (sensors.h:18-25), floats idealised as ℚ. -/
structure sensor_readings_t where
  dht_humidity : ℚ
  dht_temperature : ℚ
  ultrasonic_distance : Int
  mpu_accel_x : ℚ
  mpu_accel_y : ℚ
  mpu_accel_z : ℚ
deriving DecidableEq

/-- The rational 55.5, a sample humidity reading. -/
def q_55_5 : ℚ := ⟨111, 2, by norm_num, by norm_num⟩

/-- The rational -0.5, a sample acceleration reading. -/
def q_neg_half : ℚ := ⟨-1, 2, by norm_num, by norm_num⟩

/-- Rendering of printf `%.<dp>f`: the value is rounded to the nearest
multiple of `10^-dp`, halves up (`scaled = ⌊q * 10^dp + 1/2⌋`, computed
on `q.num` and `q.den` so that the kernel can evaluate it), and printed
with a minus sign, the integer part, a point and exactly `dp` fractional
digits. -/
def fmt_fixed (dp : Nat) (q : ℚ) : String :=
  let scaled : Int :=
    Int.fdiv (2 * q.num * (10 : Int) ^ dp + (q.den : Int))
      (2 * (q.den : Int))
  let sign := if scaled < 0 then "-" else ""
  let n := scaled.natAbs
  let ip := n / 10 ^ dp
  let fp := n % 10 ^ dp
  let fs := toString fp
  sign ++ toString ip ++ "." ++
    String.mk (List.replicate (dp - fs.length) '0') ++ fs

/-- The `snprintf` of the success branch of `dynamic_sensor_task`
(task_manager.c:64-72): `"[%s] H:%.1f%% T:%.1fC Dist:%dcm AccX:%.3fg
AccY:%.3fg AccZ:%.3fg\n"`. -/
def format_success_line (name : String) (r : sensor_readings_t) :
    String :=
  "[" ++ name ++ "] H:" ++ fmt_fixed 1 r.dht_humidity ++ "% T:" ++
    fmt_fixed 1 r.dht_temperature ++ "C Dist:" ++
    toString r.ultrasonic_distance ++ "cm AccX:" ++
    fmt_fixed 3 r.mpu_accel_x ++ "g AccY:" ++
    fmt_fixed 3 r.mpu_accel_y ++ "g AccZ:" ++
    fmt_fixed 3 r.mpu_accel_z ++ "g\n"

/-- `uart_log` (task_manager.c:210-226): the bytes written to UART are
the `vsnprintf` of `format` with its arguments; the `task_name`
parameter is accepted but never used by the body. -/
def uart_log (task_name : String) (formatted : String) : String :=
  formatted

/-- The line a cycle of `dynamic_sensor_task` hands to the log sink
(task_manager.c:62-76): on success the `snprintf` line via
`uart_log(config->name, "%s", log_buffer)`; on failure
`uart_log(config->name, "Read error\n")`. -/
def cycle_log_line (name : String) (success : Bool)
    (r : sensor_readings_t) : String :=
  if success then uart_log name (format_success_line name r)
  else uart_log name "Read error\n"

/-! ## Config transport (src/main/main.c:30-82) -/

/-- `UART_BUF_SIZE` (main.c:10). -/
def UART_BUF_SIZE : Nat := 4096

/-- The literal start marker scanned for by `uart_read_json_config`
(main.c:52). -/
def start_marker : List Char := ['S', 'T', 'A', 'R', 'T']

/-- The literal end marker scanned for by `uart_read_json_config`
(main.c:61). -/
def end_marker : List Char := ['E', 'N', 'D']

/-- Transport state of `uart_read_json_config`: the `started` flag, the
loop-exit flag (`break` on END), and the accumulation buffer
`config_buffer[0..total_len)`. -/
structure recv_state where
  started : Bool
  complete : Bool
  buf : List Char
deriving DecidableEq

/-- One iteration of the receive loop of `uart_read_json_config`
(main.c:45-73) on a nonempty chunk `c` (`len > 0`): before START, a
chunk containing the start marker flips `started` and nothing is
accumulated (the `continue` at line 57); after START, a chunk containing
the end marker exits the loop at once (line 63), and any other chunk is
appended whole when `total_len + len < UART_BUF_SIZE - 1` and dropped
whole otherwise (lines 67-71). -/
def chunk_step (st : recv_state) (c : List Char) : recv_state :=
  if st.complete then st
  else if !st.started then
    if start_marker <:+: c then ⟨true, false, st.buf⟩ else st
  else if end_marker <:+: c then ⟨st.started, true, st.buf⟩
  else if st.buf.length + c.length < UART_BUF_SIZE - 1 then
    ⟨st.started, st.complete, st.buf ++ c⟩
  else st

/-- `uart_read_json_config` (main.c:30-82) run over the sequence of
nonempty chunks delivered by `uart_read_bytes`. -/
def uart_read_json_config (chunks : List (List Char)) : recv_state :=
  chunks.foldl chunk_step ⟨false, false, []⟩

/-- The accumulation a run of non-marker chunks performs on a buffer:
each chunk is appended whole when it fits, dropped whole otherwise. -/
def accumulate (b : List Char) (chunks : List (List Char)) : List Char :=
  chunks.foldl
    (fun acc c =>
      if acc.length + c.length < UART_BUF_SIZE - 1 then acc ++ c else acc)
    b

/-! ## Resource arbitration (task_manager.c:14-18, sensors.c:138-142)

Two concurrent routines polling the same sensor kind share that kind's
mutex.  One loop iteration of an averaged reader is
`xSemaphoreTake(handle); <single-shot read>; xSemaphoreGive(handle);
vTaskDelay(...)` (sensors.c:139-149): each routine cycles through
`idle` (about to take), `reading` (holding the mutex, the single-shot
read in progress) and `rest` (the inter-sample delay), and the take
succeeds only when no one holds the mutex. -/

/-- Control point of one polling routine within a sampler iteration. -/
inductive lock_pc where
  | idle
  | reading
  | rest
deriving DecidableEq

/-- Joint state of two routines sharing one sensor mutex; `owner` is
the current holder of the mutex. -/
structure lock_sys where
  pc1 : lock_pc
  pc2 : lock_pc
  owner : Option (Fin 2)
deriving DecidableEq

/-- Initial state: neither routine is reading, the mutex is free. -/
def lock_init : lock_sys := ⟨.idle, .idle, none⟩

/-- Interleaving semantics: at each step one routine either completes
`xSemaphoreTake` (only when the mutex is free) and enters its read,
finishes the read and performs `xSemaphoreGive`, or ends its
inter-sample delay. -/
inductive lock_step : lock_sys → lock_sys → Prop where
  | acquire1 (s : lock_sys) (h1 : s.pc1 = .idle) (h2 : s.owner = none) :
      lock_step s ⟨.reading, s.pc2, some 0⟩
  | release1 (s : lock_sys) (h1 : s.pc1 = .reading) :
      lock_step s ⟨.rest, s.pc2, none⟩
  | wake1 (s : lock_sys) (h1 : s.pc1 = .rest) :
      lock_step s ⟨.idle, s.pc2, s.owner⟩
  | acquire2 (s : lock_sys) (h1 : s.pc2 = .idle) (h2 : s.owner = none) :
      lock_step s ⟨s.pc1, .reading, some 1⟩
  | release2 (s : lock_sys) (h1 : s.pc2 = .reading) :
      lock_step s ⟨s.pc1, .rest, none⟩
  | wake2 (s : lock_sys) (h1 : s.pc2 = .rest) :
      lock_step s ⟨s.pc1, .idle, s.owner⟩

/-- States reachable from `lock_init` under any interleaving. -/
def lock_reachable (s : lock_sys) : Prop :=
  Relation.ReflTransGen lock_step lock_init s

/-- The lock invariant: a routine is inside its read phase only while
it is the registered owner of the mutex. -/
def lock_inv (s : lock_sys) : Prop :=
  (s.pc1 = .reading → s.owner = some 0) ∧
  (s.pc2 = .reading → s.owner = some 1)

/-! ## Helper lemmas -/

theorem parse_some_of_well_formed (r : task_record)
    (h : well_formed r = true) : ∃ c, parse_task_record r = some c := by
  rcases r with ⟨n, p, per, ss⟩
  cases n <;> cases p <;> cases per <;> cases ss <;>
    simp_all [well_formed, parse_task_record]

theorem parse_none_of_not_well_formed (r : task_record)
    (h : well_formed r = false) : parse_task_record r = none := by
  rcases r with ⟨n, p, per, ss⟩
  cases n <;> cases p <;> cases per <;> cases ss <;>
    simp_all [well_formed, parse_task_record]

theorem parse_eq_of_some_fields (n : String) (p per : Int)
    (ss : List sensor_entry) :
    parse_task_record ⟨some n, some p, some per, some ss⟩ =
      some ⟨n.take (MAX_TASK_NAME_LEN - 1), p, per,
        (ss.take MAX_SENSORS_PER_TASK).map decode_sensor_slot,
        min ss.length MAX_SENSORS_PER_TASK⟩ := rfl

theorem parse_shape (r : task_record) (cfg : task_config)
    (h : parse_task_record r = some cfg) :
    ∃ (n : String) (p per : Int) (ss : List sensor_entry),
      cfg = ⟨n.take (MAX_TASK_NAME_LEN - 1), p, per,
        (ss.take MAX_SENSORS_PER_TASK).map decode_sensor_slot,
        min ss.length MAX_SENSORS_PER_TASK⟩ := by
  rcases r with ⟨n, p, per, ss⟩
  rcases n with - | n
  · exact absurd h (by simp [parse_task_record])
  rcases p with - | p
  · exact absurd h (by simp [parse_task_record])
  rcases per with - | per
  · exact absurd h (by simp [parse_task_record])
  rcases ss with - | ss
  · exact absurd h (by simp [parse_task_record])
  exact ⟨n, p, per, ss,
    (Option.some.inj ((parse_eq_of_some_fields n p per ss).symm.trans
      h)).symm⟩

theorem length_filterMap_of_isSome {α β : Type} (f : α → Option β) :
    ∀ l : List α, (∀ x ∈ l, (f x).isSome) →
      (l.filterMap f).length = l.length := by
  intro l
  induction l with
  | nil => simp
  | cons x t ih =>
    intro h
    have hx := h x (by simp)
    rcases hfx : f x with - | b
    · rw [hfx] at hx; simp at hx
    · simp only [List.filterMap_cons, hfx, List.length_cons]
      rw [ih (fun y hy => h y (by simp [hy]))]

/-- C2: For every valid payload (parseable document with a tasks array)
containing K well-formed task records, the config compiler
(`task_manager_parse_and_create`, assuming every spawn succeeds)
returns exactly K when K ≤ 32, and returns exactly 32 when K > 32,
with the excess records ignored without failing the batch. -/
theorem parse_and_create_returns_record_count (records : List task_record)
    (hw : ∀ r ∈ records, well_formed r = true) :
    (records.length ≤ MAX_TASKS →
      task_manager_parse_and_create (some records) (fun _ => true) =
        records.length) ∧
    (MAX_TASKS < records.length →
      task_manager_parse_and_create (some records) (fun _ => true) =
        MAX_TASKS) := by
  have hlen : ((records.take MAX_TASKS).filterMap parse_task_record).length
      = (records.take MAX_TASKS).length := by
    refine length_filterMap_of_isSome parse_task_record _ (fun r hr => ?_)
    obtain ⟨c, hc⟩ :=
      parse_some_of_well_formed r (hw r (List.mem_of_mem_take hr))
    simp [hc]
  constructor
  · intro hle
    simp only [task_manager_parse_and_create, created_configs,
      List.filter_true]
    rw [hlen, List.take_of_length_le hle]
  · intro hgt
    simp only [task_manager_parse_and_create, created_configs,
      List.filter_true]
    rw [hlen, List.length_take]
    simp [Nat.min_eq_left (le_of_lt hgt)]

/-- Witness for C2: a payload of one well-formed record compiles to
exactly one task. -/
theorem parse_and_create_returns_record_count_witness :
    task_manager_parse_and_create
      (some [⟨some "T1", some 5, some 1000, some [some "dht11"]⟩])
      (fun _ => true) = 1 :=
  (parse_and_create_returns_record_count
      [⟨some "T1", some 5, some 1000, some [some "dht11"]⟩]
      (by intro r hr; simp at hr; subst hr; rfl)).1 (by decide)

/-- C6: a record missing any of the four keys is excluded from the
output, the remaining records are still processed, and the
configuration as a whole succeeds (returns a positive count) if at
least one other record is valid. -/
theorem missing_key_record_skipped (pre post : List task_record)
    (bad : task_record) (hbad : well_formed bad = false)
    (hlen : pre.length + 1 + post.length ≤ MAX_TASKS) :
    task_manager_parse_and_create (some (pre ++ bad :: post))
        (fun _ => true) =
      task_manager_parse_and_create (some (pre ++ post))
        (fun _ => true) ∧
    ((∃ r ∈ pre ++ post, well_formed r = true) →
      0 < task_manager_parse_and_create (some (pre ++ bad :: post))
        (fun _ => true)) := by
  have hlen1 : (pre ++ bad :: post).length ≤ MAX_TASKS := by
    simp only [List.length_append, List.length_cons]; omega
  have hlen2 : (pre ++ post).length ≤ MAX_TASKS := by
    simp only [List.length_append]; omega
  have hsame : (pre ++ bad :: post).filterMap parse_task_record =
      (pre ++ post).filterMap parse_task_record := by
    simp [List.filterMap_append, List.filterMap_cons,
      parse_none_of_not_well_formed bad hbad]
  constructor
  · simp only [task_manager_parse_and_create, created_configs,
      List.filter_true, List.take_of_length_le hlen1,
      List.take_of_length_le hlen2, hsame]
  · rintro ⟨r, hr, hwf⟩
    obtain ⟨c, hc⟩ := parse_some_of_well_formed r hwf
    have hmem : c ∈ (pre ++ post).filterMap parse_task_record :=
      List.mem_filterMap.mpr ⟨r, hr, hc⟩
    simp only [task_manager_parse_and_create, created_configs,
      List.filter_true, List.take_of_length_le hlen1, hsame]
    exact_mod_cast List.length_pos.mpr (List.ne_nil_of_mem hmem)

/-- Witness for C6: a two-record payload whose first record lacks
`period_ms` still compiles, producing the one valid task. -/
theorem missing_key_record_skipped_witness :
    task_manager_parse_and_create
        (some [⟨some "bad", some 1, none, some []⟩,
               ⟨some "T1", some 5, some 1000, some [some "dht11"]⟩])
        (fun _ => true) =
      task_manager_parse_and_create
        (some [⟨some "T1", some 5, some 1000, some [some "dht11"]⟩])
        (fun _ => true) ∧
    0 < task_manager_parse_and_create
        (some [⟨some "bad", some 1, none, some []⟩,
               ⟨some "T1", some 5, some 1000, some [some "dht11"]⟩])
        (fun _ => true) := by
  have h := missing_key_record_skipped []
    [⟨some "T1", some 5, some 1000, some [some "dht11"]⟩]
    ⟨some "bad", some 1, none, some []⟩ (by rfl) (by decide)
  exact ⟨h.1, h.2 ⟨⟨some "T1", some 5, some 1000, some [some "dht11"]⟩,
    by simp, by rfl⟩⟩

/-- C7: every TaskSpec produced by the config compiler has a sensor
list of length at most 3; a record whose sensors array has n > 3
entries is not rejected but yields a TaskSpec whose sensors are exactly
the decodings of the first 3 entries of the record's list, and for
n ≤ 3 all n entries are kept in order. -/
theorem sensor_list_truncated_to_three :
    (∀ (records : List task_record) (spawn_ok : task_config → Bool)
        (cfg : task_config), cfg ∈ created_configs records spawn_ok →
      cfg.sensors.length ≤ MAX_SENSORS_PER_TASK) ∧
    (∀ (n : String) (p per : Int) (ss : List sensor_entry),
      ∃ cfg, parse_task_record ⟨some n, some p, some per, some ss⟩ =
          some cfg ∧
        cfg.sensors = (ss.take MAX_SENSORS_PER_TASK).map
          decode_sensor_slot ∧
        cfg.sensors.length ≤ MAX_SENSORS_PER_TASK ∧
        (ss.length ≤ MAX_SENSORS_PER_TASK →
          cfg.sensors = ss.map decode_sensor_slot)) := by
  constructor
  · intro records spawn_ok cfg hmem
    have hmem2 : cfg ∈ (records.take MAX_TASKS).filterMap
        parse_task_record := (List.mem_filter.mp hmem).1
    obtain ⟨r, -, hr⟩ := List.mem_filterMap.mp hmem2
    obtain ⟨n, p, per, ss, hcfg⟩ := parse_shape r cfg hr
    subst hcfg
    simp [List.length_take]
  · intro n p per ss
    refine ⟨_, rfl, rfl, ?_, ?_⟩
    · simp [List.length_take]
    · intro hle
      simp [List.take_of_length_le hle]

/-- Witness for C7: a four-entry sensor list yields the decodings of
its first three entries; a two-entry list is kept whole in order. -/
theorem sensor_list_truncated_to_three_witness :
    (∃ cfg, parse_task_record ⟨some "T1", some 5, some 1000,
        some [some "dht11", some "mpu6050", some "bogus",
              some "ultrasonic"]⟩ = some cfg ∧
      cfg.sensors = [sensor_type_t.SENSOR_DHT11,
        sensor_type_t.SENSOR_MPU6050, sensor_type_t.SENSOR_NONE] ∧
      cfg.sensors.length ≤ MAX_SENSORS_PER_TASK) ∧
    (∃ cfg, parse_task_record ⟨some "T2", some 5, some 1000,
        some [some "ultrasonic", some "dht11"]⟩ = some cfg ∧
      cfg.sensors = [sensor_type_t.SENSOR_ULTRASONIC,
        sensor_type_t.SENSOR_DHT11]) := by
  constructor
  · obtain ⟨cfg, h1, h2, h3, -⟩ :=
      sensor_list_truncated_to_three.2 "T1" 5 1000
        [some "dht11", some "mpu6050", some "bogus", some "ultrasonic"]
    refine ⟨cfg, h1, ?_, h3⟩
    rw [h2]; rfl
  · obtain ⟨cfg, h1, -, -, h4⟩ :=
      sensor_list_truncated_to_three.2 "T2" 5 1000
        [some "ultrasonic", some "dht11"]
    refine ⟨cfg, h1, ?_⟩
    rw [h4 (by decide)]; rfl

/-- C9: a sensors-array element that is present but carries no string
value leaves its slot at the zero-initialised enum value, which is
`SENSOR_DHT11`, not `SENSOR_NONE`; such a slot dispatches to the DHT11
averaged read in the polling cycle rather than being a no-op. -/
theorem non_string_sensor_entry_polls_dht (n : String) (p per : Int)
    (pre post : List sensor_entry)
    (hpre : pre.length < MAX_SENSORS_PER_TASK) :
    ∃ cfg, parse_task_record
        ⟨some n, some p, some per, some (pre ++ none :: post)⟩ =
          some cfg ∧
      cfg.sensors[pre.length]? = some sensor_type_zero ∧
      sensor_type_zero = .SENSOR_DHT11 ∧
      sensor_action sensor_type_zero = some .dht ∧
      sensor_action .SENSOR_NONE = none := by
  refine ⟨_, rfl, ?_, rfl, rfl, rfl⟩
  rw [List.getElem?_map, List.getElem?_take, if_pos hpre,
    List.getElem?_append_right (le_refl pre.length)]
  simp [decode_sensor_slot]

/-- Witness for C9: the record `{sensors: ["ultrasonic", 42]}` (second
entry not a string) produces a config whose second slot reads the
DHT11. -/
theorem non_string_sensor_entry_polls_dht_witness :
    ∃ cfg, parse_task_record ⟨some "T1", some 5, some 1000,
        some [some "ultrasonic", none]⟩ = some cfg ∧
      cfg.sensors[1]? = some sensor_type_zero ∧
      sensor_action sensor_type_zero = some .dht :=
  match non_string_sensor_entry_polls_dht "T1" 5 1000
      [some "ultrasonic"] [] (by decide) with
  | ⟨cfg, h1, h2, _, h4, _⟩ => ⟨cfg, h1, h2, h4⟩

/-- C3 (code bug): in a fully successful cycle the line handed to the
log sink is `[<name>] H:<hum,1dp>% T:<temp,1dp>C Dist:<dist,int>cm
AccX:<x,3dp>g AccY:<y,3dp>g AccZ:<z,3dp>g`, as the claim states; but in
a cycle with a failed sensor read the line handed to the sink is the
bare `Read error` with no `[<name>]` prefix — `uart_log` never uses its
`task_name` parameter — contradicting the claim and spec, which give
the error line as `[<name>] Read error`. -/
theorem error_line_lacks_task_name_prefix :
    cycle_log_line "T1" true ⟨q_55_5, 24, 100, 1, 0, q_neg_half⟩ =
      "[T1] H:55.5% T:24.0C Dist:100cm AccX:1.000g AccY:0.000g AccZ:-0.500g\n" ∧
    cycle_log_line "T1" false ⟨0, 0, 0, 0, 0, 0⟩ = "Read error\n" ∧
    cycle_log_line "T1" false ⟨0, 0, 0, 0, 0, 0⟩ ≠
      "[T1] Read error\n" := by
  refine ⟨?_, by rfl, by decide⟩
  rfl

/-- C4 counterexample: the claim says each sensor kind's sample count
is distinct, but DHT11 and the ultrasonic sensor (two distinct kinds)
are both sampled with count 10. -/
theorem sample_counts_not_distinct :
    sensor_poll.dht ≠ sensor_poll.ultra ∧
    sample_count sensor_poll.dht = sample_count sensor_poll.ultra := by
  decide

/-- C4 as amended: every sensor kind's averaged sampling uses the same
fixed sample count 10, while the inter-sample delays are pairwise
distinct configuration constants (100 ms, 50 ms, 10 ms). -/
theorem sample_count_uniform_delays_distinct (k1 k2 : sensor_poll)
    (h : k1 ≠ k2) :
    sample_count k1 = 10 ∧
    inter_sample_delay_ms k1 ≠ inter_sample_delay_ms k2 := by
  cases k1 <;> cases k2 <;> simp_all [sample_count, inter_sample_delay_ms]

/-- Witness for the amended C4 at the DHT11/MPU6050 pair. -/
theorem sample_count_uniform_delays_distinct_witness :
    sample_count sensor_poll.dht = 10 ∧
    inter_sample_delay_ms sensor_poll.dht ≠
      inter_sample_delay_ms sensor_poll.mpu :=
  sample_count_uniform_delays_distinct sensor_poll.dht sensor_poll.mpu
    (by decide)

theorem dht_foldl_spec :
    ∀ (reads : List (Option (Int × Int))) (a : dht_acc),
      reads.foldl dht_step a =
        ⟨a.sum_hum +
           ((reads.filterMap id).map (fun ht => (ht.1 : ℚ) / 10)).sum,
         a.sum_temp +
           ((reads.filterMap id).map (fun ht => (ht.2 : ℚ) / 10)).sum,
         a.valid_count + (reads.filterMap id).length⟩ := by
  intro reads
  induction reads with
  | nil => intro a; simp
  | cons r t ih =>
    intro a
    cases r with
    | none =>
      simp only [List.foldl_cons, dht_step, List.filterMap_cons]
      rw [ih]
      simp
    | some ht =>
      simp only [List.foldl_cons, dht_step, List.filterMap_cons, id]
      rw [ih]
      simp only [List.map_cons, List.sum_cons, List.length_cons,
        dht_acc.mk.injEq]
      refine ⟨by ring, by ring, by omega⟩

theorem ultra_foldl_spec :
    ∀ (reads : List Int) (a : ultra_acc),
      reads.foldl ultra_step a =
        ⟨a.sum_dist + (reads.filter (fun d => 0 < d)).sum,
         a.valid_count + (reads.filter (fun d => 0 < d)).length⟩ := by
  intro reads
  induction reads with
  | nil => intro a; simp
  | cons r t ih =>
    intro a
    by_cases hr : 0 < r
    · simp only [List.foldl_cons, ultra_step]
      rw [if_pos hr, ih]
      have hf : (r :: t).filter (fun d => 0 < d) =
          r :: t.filter (fun d => 0 < d) := by
        simp [List.filter_cons, hr]
      rw [hf]
      simp only [List.sum_cons, List.length_cons, ultra_acc.mk.injEq]
      exact ⟨by ring, by omega⟩
    · simp only [List.foldl_cons, ultra_step]
      rw [if_neg hr, ih]
      have hf : (r :: t).filter (fun d => 0 < d) =
          t.filter (fun d => 0 < d) := by
        simp [List.filter_cons, hr]
      rw [hf]

theorem mpu_foldl_spec :
    ∀ (reads : List (Option (ℚ × ℚ × ℚ))) (a : mpu_acc),
      reads.foldl mpu_step a =
        ⟨a.sum_x + ((reads.filterMap id).map (fun v => v.1)).sum,
         a.sum_y + ((reads.filterMap id).map (fun v => v.2.1)).sum,
         a.sum_z + ((reads.filterMap id).map (fun v => v.2.2)).sum,
         a.valid_count + (reads.filterMap id).length⟩ := by
  intro reads
  induction reads with
  | nil => intro a; simp
  | cons r t ih =>
    intro a
    cases r with
    | none =>
      simp only [List.foldl_cons, mpu_step, List.filterMap_cons]
      rw [ih]
      simp
    | some v =>
      simp only [List.foldl_cons, mpu_step, List.filterMap_cons, id]
      rw [ih]
      simp only [List.map_cons, List.sum_cons, List.length_cons,
        mpu_acc.mk.injEq]
      refine ⟨by ring, by ring, by ring, by omega⟩

/-- C1 counterexample: a single ultrasonic single-shot read that
succeeds (returns a distance, not the `-1` error) with the value 0 cm
(echo pulse of 30 µs) gives M = 1 ≥ 1 successful reads out of N = 1,
yet `read_ultrasonic_averaged` returns the error, not the mean of the
one successful value. -/
theorem ultrasonic_zero_sample_refutes_mean_claim :
    get_ultrasonic_data false 30 = 0 ∧
    get_ultrasonic_data false 30 ≠ -1 ∧
    read_ultrasonic_averaged [get_ultrasonic_data false 30] = none := by
  decide

/-- C1 as amended: for the DHT11 and MPU6050 samplers, with M ≥ 1 of
the N underlying reads succeeding, the call returns the arithmetic mean
of exactly the M successful values (denominator M, not N), and fails
writing nothing when M = 0; for the ultrasonic sampler the same holds
with "valid sample" meaning a read whose returned distance is strictly
positive (a successful 0 cm read is excluded), the mean being the C
integer quotient of the sum of valid distances by their count. -/
theorem averaged_samplers_mean_of_valid :
    (∀ reads : List (Option (Int × Int)),
      ((reads.filterMap id).length = 0 →
        read_dht11_averaged reads = none) ∧
      (0 < (reads.filterMap id).length →
        read_dht11_averaged reads = some
          ((((reads.filterMap id).map
              (fun ht => (ht.1 : ℚ) / 10)).sum) /
             ((reads.filterMap id).length : ℚ),
           (((reads.filterMap id).map
              (fun ht => (ht.2 : ℚ) / 10)).sum) /
             ((reads.filterMap id).length : ℚ)))) ∧
    (∀ reads : List Int,
      ((reads.filter (fun d => 0 < d)).length = 0 →
        read_ultrasonic_averaged reads = none) ∧
      (0 < (reads.filter (fun d => 0 < d)).length →
        read_ultrasonic_averaged reads = some
          ((reads.filter (fun d => 0 < d)).sum /
            ((reads.filter (fun d => 0 < d)).length : Int)))) ∧
    (∀ reads : List (Option (ℚ × ℚ × ℚ)),
      ((reads.filterMap id).length = 0 →
        read_mpu6050_averaged reads = none) ∧
      (0 < (reads.filterMap id).length →
        read_mpu6050_averaged reads = some
          ((((reads.filterMap id).map (fun v => v.1)).sum) /
             ((reads.filterMap id).length : ℚ),
           (((reads.filterMap id).map (fun v => v.2.1)).sum) /
             ((reads.filterMap id).length : ℚ),
           (((reads.filterMap id).map (fun v => v.2.2)).sum) /
             ((reads.filterMap id).length : ℚ)))) := by
  refine ⟨fun reads => ⟨?_, ?_⟩, fun reads => ⟨?_, ?_⟩,
    fun reads => ⟨?_, ?_⟩⟩
  · intro h0
    by_cases hnil : reads.length ≤ 0
    · simp [read_dht11_averaged, hnil]
    · simp only [read_dht11_averaged, if_neg hnil, dht_foldl_spec]
      simp [h0]
  · intro hpos
    have hnil : ¬ reads.length ≤ 0 := by
      have := List.length_filterMap_le id reads
      omega
    simp only [read_dht11_averaged, if_neg hnil, dht_foldl_spec]
    rw [if_neg (show ¬(0 + (reads.filterMap id).length = 0) by omega)]
    simp only [zero_add]
  · intro h0
    by_cases hnil : reads.length ≤ 0
    · simp [read_ultrasonic_averaged, hnil]
    · simp only [read_ultrasonic_averaged, if_neg hnil, ultra_foldl_spec]
      simp [h0]
  · intro hpos
    have hnil : ¬ reads.length ≤ 0 := by
      have := List.length_filter_le (fun d => 0 < d) reads
      omega
    simp only [read_ultrasonic_averaged, if_neg hnil, ultra_foldl_spec]
    rw [if_neg (show
      ¬(0 + (reads.filter (fun d => 0 < d)).length = 0) by omega)]
    simp only [zero_add]
  · intro h0
    by_cases hnil : reads.length ≤ 0
    · simp [read_mpu6050_averaged, hnil]
    · simp only [read_mpu6050_averaged, if_neg hnil, mpu_foldl_spec]
      simp [h0]
  · intro hpos
    have hnil : ¬ reads.length ≤ 0 := by
      have := List.length_filterMap_le id reads
      omega
    simp only [read_mpu6050_averaged, if_neg hnil, mpu_foldl_spec]
    rw [if_neg (show ¬(0 + (reads.filterMap id).length = 0) by omega)]
    simp only [zero_add]

/-- Witness for the amended C1: concrete partial-failure runs of each
sampler.  DHT11: two of three reads succeed with (50.0, 25.0) and
(60.0, 35.0), giving (55.0, 30.0); ultrasonic: reads 7, -1 (failed), 0
(excluded), 9 average to 8; MPU: one of two reads succeeds. -/
theorem averaged_samplers_mean_of_valid_witness :
    read_dht11_averaged [some (500, 250), none, some (600, 350)] =
      some (55, 30) ∧
    read_ultrasonic_averaged [7, -1, 0, 9] = some 8 ∧
    read_mpu6050_averaged [some (1, 2, 3), none] = some (1, 2, 3) := by
  refine ⟨?_, ?_, ?_⟩
  · rw [(averaged_samplers_mean_of_valid.1
      [some (500, 250), none, some (600, 350)]).2 (by decide)]
    simp [List.filterMap_cons]
    norm_num
  · rw [(averaged_samplers_mean_of_valid.2.1 [7, -1, 0, 9]).2
      (by decide)]
    decide
  · rw [(averaged_samplers_mean_of_valid.2.2 [some (1, 2, 3), none]).2
      (by decide)]
    simp [List.filterMap_cons]

/-- C10: `read_ultrasonic_averaged` counts an underlying read as a
valid sample only when the returned distance is strictly positive: a
successful read measuring 0 cm (producible: a 30 µs echo) is excluded
from the average exactly as a failed read (-1) would be, and a run
whose reads all return 0 fails exactly as if no read had succeeded. -/
theorem zero_distance_samples_invalid (n : Nat) (pre post reads : List Int)
    (hall : ∀ d ∈ reads, d = 0) :
    get_ultrasonic_data false 30 = 0 ∧
    read_ultrasonic_averaged reads = none ∧
    read_ultrasonic_averaged (pre ++ 0 :: post) =
      read_ultrasonic_averaged (pre ++ (-1) :: post) ∧
    read_ultrasonic_averaged (List.replicate n 0) =
      read_ultrasonic_averaged (List.replicate n (-1)) := by
  have hcanon : ∀ rs : List Int, read_ultrasonic_averaged rs =
      if rs.length ≤ 0 then none
      else if (rs.filter (fun d => 0 < d)).length = 0 then none
      else some ((rs.filter (fun d => 0 < d)).sum /
        ((rs.filter (fun d => 0 < d)).length : Int)) := by
    intro rs
    simp only [read_ultrasonic_averaged, ultra_foldl_spec]
    simp
  refine ⟨by decide, ?_, ?_, ?_⟩
  · rw [hcanon]
    have hf : reads.filter (fun d => 0 < d) = [] := by
      rw [List.filter_eq_nil_iff]
      intro a ha
      have := hall a ha
      simp [this]
    rw [hf]
    simp
  · rw [hcanon, hcanon]
    have hf : (pre ++ 0 :: post).filter (fun d => 0 < d) =
        (pre ++ (-1) :: post).filter (fun d => 0 < d) := by
      simp [List.filter_append, List.filter_cons]
    have hl : (pre ++ 0 :: post).length =
        (pre ++ (-1) :: post).length := by simp
    rw [hf, hl]
  · rw [hcanon, hcanon]
    have hf0 : (List.replicate n (0 : Int)).filter (fun d => 0 < d)
        = [] := by
      rw [List.filter_eq_nil_iff]
      intro a ha
      have := List.eq_of_mem_replicate ha
      simp [this]
    have hf1 : (List.replicate n (-1 : Int)).filter (fun d => 0 < d)
        = [] := by
      rw [List.filter_eq_nil_iff]
      intro a ha
      have := List.eq_of_mem_replicate ha
      simp [this]
    rw [hf0, hf1]
    simp

/-- Witness for C10 on concrete runs: three all-zero reads fail exactly
like three failed reads, and a 0 read among valid ones is dropped. -/
theorem zero_distance_samples_invalid_witness :
    read_ultrasonic_averaged [0, 0, 0] = none ∧
    read_ultrasonic_averaged [4, 0, 6] =
      read_ultrasonic_averaged [4, -1, 6] := by
  have h := zero_distance_samples_invalid 3 [4] [6] [0, 0, 0]
    (by intro d hd; simpa using hd)
  exact ⟨h.2.1, h.2.2.1⟩

/-- C5 counterexample: after START, the chunk `"ABEND"` contains the
end marker, and the loop exits without appending anything from it: the
non-marker bytes `A`, `B` preceding the end marker inside that chunk
are NOT appended, so the returned payload is empty rather than
`['A', 'B']` as the claim requires. -/
theorem end_chunk_prefix_bytes_dropped :
    (uart_read_json_config
      [['S', 'T', 'A', 'R', 'T'], ['A', 'B', 'E', 'N', 'D']]).complete
        = true ∧
    (uart_read_json_config
      [['S', 'T', 'A', 'R', 'T'], ['A', 'B', 'E', 'N', 'D']]).buf
        = [] := by
  decide

theorem chunk_fold_no_end (mid : List (List Char)) :
    ∀ b, (∀ c ∈ mid, ¬ end_marker <:+: c) →
      mid.foldl chunk_step ⟨true, false, b⟩ =
        ⟨true, false, accumulate b mid⟩ := by
  induction mid with
  | nil => intro b _; simp [accumulate]
  | cons c t ih =>
    intro b hmid
    have hc : ¬ end_marker <:+: c := hmid c (by simp)
    have hstep : chunk_step ⟨true, false, b⟩ c =
        ⟨true, false,
          if b.length + c.length < UART_BUF_SIZE - 1 then b ++ c
          else b⟩ := by
      simp only [chunk_step]
      rw [if_neg (by simp), if_neg (by simp)]
      rw [if_neg hc]
      by_cases hfit : b.length + c.length < UART_BUF_SIZE - 1
      · rw [if_pos hfit, if_pos hfit]
      · rw [if_neg hfit, if_neg hfit]
    rw [List.foldl_cons, hstep]
    by_cases hfit : b.length + c.length < UART_BUF_SIZE - 1
    · rw [if_pos hfit, ih (b ++ c) (fun x hx => hmid x (by simp [hx]))]
      simp only [accumulate, List.foldl_cons, if_pos hfit]
    · rw [if_neg hfit, ih b (fun x hx => hmid x (by simp [hx]))]
      simp only [accumulate, List.foldl_cons, if_neg hfit]

/-- C5 as amended: while Receiving, a chunk in which the end marker is
observed is discarded entirely — including its non-marker bytes that
precede the marker — and the transport completes; every chunk received
after START and strictly before the end-marker chunk is appended to
the buffer whole if it fits below the bound and dropped whole
otherwise; the payload on Complete is the concatenation of exactly the
appended chunks. -/
theorem payload_excludes_end_chunk_bytes (mid : List (List Char))
    (e : List Char) (hmid : ∀ c ∈ mid, ¬ end_marker <:+: c)
    (he : end_marker <:+: e) :
    (uart_read_json_config (start_marker :: mid ++ [e])).complete
        = true ∧
    (uart_read_json_config (start_marker :: mid ++ [e])).buf
        = accumulate [] mid := by
  have hstart : chunk_step ⟨false, false, []⟩ start_marker =
      ⟨true, false, []⟩ := by
    simp only [chunk_step]
    rw [if_neg (by simp), if_pos (by simp),
      if_pos (List.infix_refl start_marker)]
  have hmidfold := chunk_fold_no_end mid [] hmid
  have hend : chunk_step ⟨true, false, accumulate [] mid⟩ e =
      ⟨true, true, accumulate [] mid⟩ := by
    simp only [chunk_step]
    rw [if_neg (by simp), if_neg (by simp), if_pos he]
  have hrun : uart_read_json_config (start_marker :: mid ++ [e]) =
      ⟨true, true, accumulate [] mid⟩ := by
    simp only [uart_read_json_config]
    rw [List.foldl_append, List.foldl_cons, List.foldl_nil,
      List.foldl_cons, hstart, hmidfold, hend]
  rw [hrun]
  exact ⟨rfl, rfl⟩

/-- Witness for the amended C5: START, then the chunk `"AB"`, then the
end-marker chunk `"CDEND"`: the payload is exactly `"AB"`; the bytes
`C`, `D` of the end-marker chunk are dropped. -/
theorem payload_excludes_end_chunk_bytes_witness :
    (uart_read_json_config [['S', 'T', 'A', 'R', 'T'], ['A', 'B'],
      ['C', 'D', 'E', 'N', 'D']]).complete = true ∧
    (uart_read_json_config [['S', 'T', 'A', 'R', 'T'], ['A', 'B'],
      ['C', 'D', 'E', 'N', 'D']]).buf = ['A', 'B'] := by
  have h := payload_excludes_end_chunk_bytes [['A', 'B']]
    ['C', 'D', 'E', 'N', 'D'] (by decide) (by decide)
  refine ⟨h.1, h.2.trans (by decide)⟩

/-! ## C8: mutual exclusion of same-kind reads -/

theorem lock_inv_preserved (s s' : lock_sys) (hs : lock_inv s)
    (h : lock_step s s') : lock_inv s' := by
  obtain ⟨h1, h2⟩ := hs
  cases h with
  | acquire1 hp ho =>
    refine ⟨fun _ => rfl, fun hr => ?_⟩
    exact absurd (h2 hr) (by simp [ho])
  | release1 hp =>
    exact ⟨fun hr => by simp at hr, fun hr => by
      have hb := h2 hr
      rw [h1 hp] at hb
      exact absurd (Option.some.inj hb) (by decide)⟩
  | wake1 hp =>
    exact ⟨fun hr => by simp at hr, fun hr => h2 hr⟩
  | acquire2 hp ho =>
    refine ⟨fun hr => ?_, fun _ => rfl⟩
    exact absurd (h1 hr) (by simp [ho])
  | release2 hp =>
    exact ⟨fun hr => by
      have hb := h1 hr
      rw [h2 hp] at hb
      exact absurd (Option.some.inj hb) (by decide),
      fun hr => by simp at hr⟩
  | wake2 hp =>
    exact ⟨fun hr => h1 hr, fun hr => by simp at hr⟩

/-- C8: under every interleaving of two routines polling the same
sensor kind, each single-shot read happens while its routine owns that
kind's mutex, and the two routines are never both inside their read
phase at the same time. -/
theorem same_kind_reads_mutually_excluded (s : lock_sys)
    (h : lock_reachable s) :
    (s.pc1 = .reading → s.owner = some 0) ∧
    (s.pc2 = .reading → s.owner = some 1) ∧
    ¬(s.pc1 = .reading ∧ s.pc2 = .reading) := by
  have hinv : lock_inv s := by
    induction h with
    | refl => exact ⟨fun hr => by simp [lock_init] at hr,
        fun hr => by simp [lock_init] at hr⟩
    | tail _ hstep ih => exact lock_inv_preserved _ _ ih hstep
  refine ⟨hinv.1, hinv.2, ?_⟩
  rintro ⟨ha, hb⟩
  have h0 := hinv.1 ha
  have h1 := hinv.2 hb
  rw [h0] at h1
  exact absurd (Option.some.inj h1) (by decide)

/-- Witness for C8 at the reachable state in which routine 1 holds the
mutex and is reading while routine 2 is about to take it. -/
theorem same_kind_reads_mutually_excluded_witness :
    ¬((lock_sys.mk .reading .idle (some 0)).pc1 = .reading ∧
      (lock_sys.mk .reading .idle (some 0)).pc2 = .reading) :=
  (same_kind_reads_mutually_excluded ⟨.reading, .idle, some 0⟩
    (Relation.ReflTransGen.single
      (lock_step.acquire1 lock_init rfl rfl))).2.2

end Esp32Tasks
